import Mathlib

/-!
Verification of the nanaket-cms authentication and article-lifecycle core.

The definitions below are a shallow embedding of the Go source:
Go strings are modelled as lists of characters, the Postgres-backed
credential and article stores as lists of rows, and each SQL query from
the sqlc query file as a pure function on those lists.  Handlers and the
auth middleware are translated statement by statement; storage faults
other than the no-rows signal are modelled by an explicit fault
parameter standing for a failing backend call.
-/

namespace NanaketCMS

/-- Go strings, modelled as lists of characters. -/
abbrev Str := List Char

/-- Characters Go's strings.TrimSpace removes (the ASCII portion of
unicode.IsSpace, which is all the handlers ever meet). -/
def isGoSpace (c : Char) : Bool :=
  c = ' ' || c = '\t' || c = '\n' || c = '\x0b' || c = '\x0c' || c = '\r'

/-- Drop leading whitespace. -/
def goTrimLeft : Str → Str
  | [] => []
  | c :: cs => if isGoSpace c then goTrimLeft cs else c :: cs

/-- Go strings.TrimSpace: drop leading and trailing whitespace. -/
def goTrimSpace (s : Str) : Str :=
  ((goTrimLeft ((goTrimLeft s).reverse)).reverse)

/-- Go strings.ToLower, on the ASCII range the middleware compares. -/
def goToLower (s : Str) : Str := s.map Char.toLower

/-- Go strings.SplitN(s, " ", 2): the part before the first space and,
when a space exists, the remainder after it. -/
def splitAtFirstSpace : Str → Str × Option Str
  | [] => ([], none)
  | c :: cs =>
    if c = ' ' then ([], some cs)
    else
      let r := splitAtFirstSpace cs
      (c :: r.1, r.2)

/-- Digits of a decimal literal; none when empty or a non-digit occurs. -/
def digitsToNat? : Str → Option Nat
  | [] => none
  | [c] => if c.isDigit then some (c.toNat - '0'.toNat) else none
  | c :: cs =>
    if c.isDigit then
      match digitsToNat? cs with
      | some n => some ((c.toNat - '0'.toNat) * 10 ^ cs.length + n)
      | none => none
    else none

/-- Go strconv.ParseInt(s, 10, 64): optional sign, decimal digits, and
the int64 range check. -/
def goParseInt64 (s : Str) : Option Int :=
  match s with
  | '+' :: rest =>
    match digitsToNat? rest with
    | some n => if n ≤ 2 ^ 63 - 1 then some (n : Int) else none
    | none => none
  | '-' :: rest =>
    match digitsToNat? rest with
    | some n => if n ≤ 2 ^ 63 then some (-(n : Int)) else none
    | none => none
  | _ =>
    match digitsToNat? s with
    | some n => if n ≤ 2 ^ 63 - 1 then some (n : Int) else none
    | none => none

/-- A row of the users table (schema.sql). -/
structure User where
  id : Int
  name : Str
  email : Str
  createdAt : Int
  updatedAt : Int
  deriving DecidableEq

/-- A row of the access_tokens table (schema.sql). -/
structure AccessToken where
  id : Int
  userId : Int
  token : Str
  expiresAt : Option Int
  createdAt : Int
  deriving DecidableEq

/-- A row of the articles table (schema.sql); published_at null means
draft. -/
structure Article where
  id : Int
  userId : Int
  title : Str
  content : Str
  publishedAt : Option Int
  createdAt : Int
  updatedAt : Int
  deriving DecidableEq

/-- The storage error a query can report: pgx.ErrNoRows from a :one
query that matched nothing, or any other backend failure. -/
inductive DBError where
  | noRows
  | other (msg : String)
  deriving DecidableEq

/-- The users and access_tokens tables seen by the auth queries. -/
structure AuthDB where
  users : List User
  tokens : List AccessToken
  deriving DecidableEq

/-- Schema invariants the database enforces: the token column is UNIQUE,
user ids are PRIMARY KEY, and user_id is a NOT NULL foreign key. -/
def WellFormed (db : AuthDB) : Prop :=
  (∀ t1 ∈ db.tokens, ∀ t2 ∈ db.tokens, t1.token = t2.token → t1 = t2)
  ∧ (∀ u1 ∈ db.users, ∀ u2 ∈ db.users, u1.id = u2.id → u1 = u2)
  ∧ (∀ t ∈ db.tokens, ∃ u ∈ db.users, u.id = t.userId)

instance (db : AuthDB) : Decidable (WellFormed db) := by
  unfold WellFormed; infer_instance

/-- The WHERE clause of the GetUserByToken query: the token row matches
when its token equals the argument and it is unexpired, where
`expires_at IS NULL OR expires_at > CURRENT_TIMESTAMP`. -/
def tokenRowMatches (now : Int) (tok : Str) (t : AccessToken) : Bool :=
  t.token == tok &&
    (match t.expiresAt with
     | none => true
     | some e => now < e)

/-- GetUserByToken (queries/auth.sql): join users with access_tokens on
user id, filter by token string and non-expiry, LIMIT 1; a :one query
with no matching row reports the no-rows signal. -/
def GetUserByToken (db : AuthDB) (now : Int) (tok : Str) : Except DBError User :=
  match db.tokens.find? (tokenRowMatches now tok) with
  | none => .error .noRows
  | some t =>
    match db.users.find? (fun u => u.id == t.userId) with
    | none => .error .noRows
    | some u => .ok u

/-- The parts of an inbound HTTP request the token resolver reads.
Go Header.Get returns the empty string for an absent header, so the
header is a plain string; r.Cookie distinguishes a missing cookie (an
error) from a present one, so the cookie is optional. -/
structure Request where
  authHeader : Str
  cookieVal : Option Str
  deriving DecidableEq

/-- The header half of extractToken (middleware/auth.go): when the
header is non-empty, SplitN on one space; a two-part result whose first
part lowercases to bearer yields the trimmed second part. -/
def headerBearerTok (hdr : Str) : Option Str :=
  if hdr = [] then none
  else
    match splitAtFirstSpace hdr with
    | (scheme, some rest) =>
      if goToLower scheme = ('b' :: 'e' :: 'a' :: 'r' :: 'e' :: 'r' :: []) then
        some (goTrimSpace rest)
      else none
    | (_, none) => none

/-- extractToken (middleware/auth.go): try the Authorization header
first; if that path does not return, fall back to the auth_token
cookie when present with a non-empty value; otherwise the empty
string. -/
def extractToken (r : Request) : Str :=
  match headerBearerTok r.authHeader with
  | some t => t
  | none =>
    match r.cookieVal with
    | some v => if v = [] then [] else v
    | none => []

/-- Outcome of one pass through AuthMiddleware: the error response it
wrote, if any, and the list of downstream invocations, each carrying
the user bound into the request context for that invocation. -/
structure MWOutcome where
  errorResponse : Option (Nat × String)
  downstreamCalls : List User
  deriving DecidableEq

/-- AuthMiddleware (middleware/auth.go): extract the token; empty means
401 No token provided; then resolve it through the injected Querier:
the no-rows signal means 401 Invalid or expired token, any other error
500; on success bind the user into the context and invoke the
downstream handler once. -/
def AuthMiddleware (resolve : Str → Except DBError User) (r : Request) : MWOutcome :=
  let token := extractToken r
  if token = [] then
    ⟨some (401, "Unauthorized: No token provided"), []⟩
  else
    match resolve token with
    | .error .noRows => ⟨some (401, "Unauthorized: Invalid or expired token"), []⟩
    | .error (.other _) => ⟨some (500, "Internal server error"), []⟩
    | .ok u => ⟨none, [u]⟩

/-- The articles table. -/
abbrev ArticleDB := List Article

/-- A storage fault injected below a query: none is a healthy backend,
some msg a failing call (connection loss and the like). -/
abbrev Fault := Option String

/-- GetArticle (queries/article.sql, :one): SELECT by id; no matching
row is the no-rows signal. -/
def GetArticleQuery (fault : Fault) (db : ArticleDB) (id : Int) : Except DBError Article :=
  match fault with
  | some m => .error (.other m)
  | none =>
    match db.find? (fun a => a.id == id) with
    | none => .error .noRows
    | some a => .ok a

/-- CreateArticle (queries/article.sql, :one INSERT RETURNING): append
a row with the supplied fields, the sequence-assigned id and
CURRENT_TIMESTAMP creation and update times. -/
def CreateArticleQuery (fault : Fault) (db : ArticleDB) (nextId userId : Int)
    (title content : Str) (publishedAt : Option Int) (now : Int) :
    ArticleDB × Except DBError Article :=
  match fault with
  | some m => (db, .error (.other m))
  | none =>
    let row : Article := ⟨nextId, userId, title, content, publishedAt, now, now⟩
    (db ++ [row], .ok row)

/-- UpdateArticle (queries/article.sql, :one UPDATE RETURNING): set
user_id, title, content, published_at and updated_at equal to
CURRENT_TIMESTAMP on the row WHERE id matches; no matched row is the
no-rows signal. -/
def UpdateArticleQuery (fault : Fault) (db : ArticleDB) (id userId : Int)
    (title content : Str) (publishedAt : Option Int) (now : Int) :
    ArticleDB × Except DBError Article :=
  match fault with
  | some m => (db, .error (.other m))
  | none =>
    match db.find? (fun a => a.id == id) with
    | none => (db, .error .noRows)
    | some a =>
      let row : Article := ⟨a.id, userId, title, content, publishedAt, a.createdAt, now⟩
      (db.map (fun b => if b.id == id then row else b), .ok row)

/-- DeleteArticle (queries/article.sql, :exec DELETE): remove the rows
WHERE id matches; a DELETE that touches zero rows is still a successful
execution, so absent a storage fault the call never errors. -/
def DeleteArticleQuery (fault : Fault) (db : ArticleDB) (id : Int) :
    ArticleDB × Except DBError Unit :=
  match fault with
  | some m => (db, .error (.other m))
  | none => (db.filter (fun a => !(a.id == id)), .ok ())

/-- The decoded JSON body of a create or update article request
(article_handler.go); published_at is a nullable Unix timestamp. -/
structure ArticleReqBody where
  userId : Int
  title : Str
  content : Str
  publishedAt : Option Int
  deriving DecidableEq

/-- What an article handler produced: the HTTP status, the error
message when one was written, the article payload on success, the
store as left behind, and how many times the usecase layer was
invoked. -/
structure HandlerResult where
  status : Nat
  errMsg : String
  article : Option Article
  db : ArticleDB
  usecaseCalls : Nat
  deriving DecidableEq

/-- CreateArticle handler (article_handler.go): a body that fails to
decode is 400; a zero UserID or empty Title or Content is 400 before
the usecase runs; then the usecase chain runs the INSERT, any error is
500, success is 201.  The body argument is none when JSON decoding
failed. -/
def CreateArticleHandler (fault : Fault) (db : ArticleDB) (body : Option ArticleReqBody)
    (nextId : Int) (now : Int) : HandlerResult :=
  match body with
  | none => ⟨400, "Invalid request body", none, db, 0⟩
  | some req =>
    if req.userId == 0 || req.title == [] || req.content == [] then
      ⟨400, "UserID, title, and content are required", none, db, 0⟩
    else
      match CreateArticleQuery fault db nextId req.userId req.title req.content req.publishedAt now with
      | (db', .error _) => ⟨500, "Failed to create article", none, db', 1⟩
      | (db', .ok a) => ⟨201, "", some a, db', 1⟩

/-- GetArticle handler (article_handler.go): an unparseable id is 400;
every error from the usecase chain, the no-rows signal or not, is
mapped to 404 Article not found; success is 200. -/
def GetArticleHandler (fault : Fault) (db : ArticleDB) (idStr : Str) : HandlerResult :=
  match goParseInt64 idStr with
  | none => ⟨400, "Invalid article ID", none, db, 0⟩
  | some id =>
    match GetArticleQuery fault db id with
    | .error _ => ⟨404, "Article not found", none, db, 1⟩
    | .ok a => ⟨200, "", some a, db, 1⟩

/-- UpdateArticle handler (article_handler.go), reached through
AuthMiddleware: unparseable id or undecodable body is 400; zero UserID
or empty Title or Content is 400; every error from the UPDATE, the
no-rows signal or not, is mapped to 404; success is 200.  The ctxUser
argument is the principal the middleware bound into the request
context; the handler body never reads it. -/
def UpdateArticleHandler (fault : Fault) (db : ArticleDB) (ctxUser : User) (idStr : Str)
    (body : Option ArticleReqBody) (now : Int) : HandlerResult :=
  match goParseInt64 idStr with
  | none => ⟨400, "Invalid article ID", none, db, 0⟩
  | some id =>
    match body with
    | none => ⟨400, "Invalid request body", none, db, 0⟩
    | some req =>
      if req.userId == 0 || req.title == [] || req.content == [] then
        ⟨400, "UserID, title, and content are required", none, db, 0⟩
      else
        match UpdateArticleQuery fault db id req.userId req.title req.content req.publishedAt now with
        | (db', .error _) => ⟨404, "Failed to update article", none, db', 1⟩
        | (db', .ok a) => ⟨200, "", some a, db', 1⟩

/-- DeleteArticle handler (article_handler.go), reached through
AuthMiddleware: unparseable id is 400; an error from the usecase chain
is mapped to 404 Article not found; success is 204 No Content. -/
def DeleteArticleHandler (fault : Fault) (db : ArticleDB) (idStr : Str) : HandlerResult :=
  match goParseInt64 idStr with
  | none => ⟨400, "Invalid article ID", none, db, 0⟩
  | some id =>
    match DeleteArticleQuery fault db id with
    | (db', .error _) => ⟨404, "Article not found", none, db', 1⟩
    | (db', .ok _) => ⟨204, "", none, db', 1⟩

/-- An http.Cookie as the auth handler sets it. -/
structure Cookie where
  name : String
  value : String
  path : String
  maxAge : Int
  httpOnly : Bool
  secure : Bool
  sameSiteStrict : Bool
  deriving DecidableEq

/-- Logout handler (auth_handler.go): unconditionally set the clearing
cookie (auth_token, empty value, MaxAge -1, path /, HttpOnly, Secure,
SameSite strict), answer 200 with a success message, and touch no
server-side state. -/
def Logout (st : AuthDB) : (Nat × Cookie × String) × AuthDB :=
  ((200, ⟨"auth_token", "", "/", -1, true, true, true⟩, "Logout successful"), st)

/-- Concrete fixtures used by witnesses and counterexamples. -/
def userAlice : User := ⟨7, 'a' :: 'l' :: [], 'a' :: '@' :: 'x' :: [], 0, 0⟩

def userBob : User := ⟨8, 'b' :: 'o' :: [], 'b' :: '@' :: 'x' :: [], 0, 0⟩

def tokLive : AccessToken := ⟨1, 7, 't' :: 'o' :: 'k' :: '1' :: [], some 100, 0⟩

def tokEternal : AccessToken := ⟨2, 8, 't' :: 'o' :: 'k' :: '2' :: [], none, 0⟩

def authDB0 : AuthDB := ⟨[userAlice, userBob], [tokLive, tokEternal]⟩

def art1 : Article := ⟨1, 7, 'T' :: [], 'B' :: [], none, 5, 5⟩

set_option maxRecDepth 8000

/-- Splitting at the first space of a string built as a space-free
prefix, a space, and a remainder recovers exactly those parts. -/
theorem splitAtFirstSpace_append (s x : Str) (hs : ' ' ∉ s) :
    splitAtFirstSpace (s ++ ' ' :: x) = (s, some x) := by
  induction s with
  | nil => simp [splitAtFirstSpace]
  | cons c cs ih =>
    have hc : ¬ c = ' ' := fun hc => hs (hc ▸ List.mem_cons_self c cs)
    have hcs : ' ' ∉ cs := fun h => hs (List.mem_cons_of_mem c h)
    simp [splitAtFirstSpace, hc, ih hcs]

/-- A header made of a space-free scheme that lowercases to bearer, a
space, and a remainder passes the header branch of extractToken and
yields the trimmed remainder. -/
theorem headerBearerTok_of_scheme (s x : Str) (hs : ' ' ∉ s)
    (hlow : goToLower s = 'b' :: 'e' :: 'a' :: 'r' :: 'e' :: 'r' :: []) :
    headerBearerTok (s ++ ' ' :: x) = some (goTrimSpace x) := by
  have hne : s ++ ' ' :: x ≠ [] := by
    cases s <;> simp
  unfold headerBearerTok
  rw [if_neg hne, splitAtFirstSpace_append s x hs]
  simp [hlow]

/-- Any row of the updated table that carries the updated id is the
replacement row itself. -/
theorem mem_update_map_eq (db : ArticleDB) (id : Int) (row b : Article)
    (hb : b ∈ db.map (fun c => if c.id == id then row else c)) (hbid : b.id = id) :
    b = row := by
  rcases List.mem_map.mp hb with ⟨c, hc, hfc⟩
  by_cases hcid : c.id = id
  · rw [← hfc]; simp [hcid]
  · simp [hcid] at hfc
    rw [← hfc] at hbid
    exact absurd hbid hcid

/-- When some row of the table carries the requested id, the UPDATE
succeeds and returns the row rebuilt from the supplied fields with the
update timestamp set to now. -/
theorem updateQuery_ok_of_mem (db : ArticleDB) (id userId : Int) (title content : Str)
    (pub : Option Int) (now : Int) (a : Article) (ha : a ∈ db) (haid : a.id = id) :
    ∃ row db2, UpdateArticleQuery none db id userId title content pub now = (db2, .ok row)
      ∧ row.id = id ∧ row.userId = userId ∧ row.updatedAt = now
      ∧ ∀ b ∈ db2, b.id = id → b = row := by
  have hsome : (db.find? (fun x => x.id == id)).isSome :=
    List.find?_isSome.mpr ⟨a, ha, by simp [haid]⟩
  obtain ⟨a0, ha0⟩ := Option.isSome_iff_exists.mp hsome
  have ha0id : a0.id = id := by simpa using List.find?_some ha0
  refine ⟨⟨a0.id, userId, title, content, pub, a0.createdAt, now⟩,
    db.map (fun b => if b.id == id then
      (⟨a0.id, userId, title, content, pub, a0.createdAt, now⟩ : Article) else b),
    ?_, ha0id, rfl, rfl, ?_⟩
  · simp [UpdateArticleQuery, ha0]
  · intro b hb hbid
    exact mem_update_map_eq db id _ b hb hbid

/-- Claim C1: resolving a token whose stored expiry is non-null and
strictly in the past fails with the no-rows signal; a stored token
with null expiry or an expiry still in the future resolves to its
owning user.  Stated over any well-formed database (unique tokens,
unique user ids, foreign key from tokens to users), any resolution
time, and any stored token row carrying the resolved string. -/
theorem getUserByToken_expiry (db : AuthDB) (now : Int) (tok : Str)
    (hw : WellFormed db) (t : AccessToken) (ht : t ∈ db.tokens) (htok : t.token = tok) :
    (∀ e, t.expiresAt = some e → e < now → GetUserByToken db now tok = .error .noRows)
    ∧ ((t.expiresAt = none ∨ ∃ e, t.expiresAt = some e ∧ now < e) →
        ∃ u ∈ db.users, u.id = t.userId ∧ GetUserByToken db now tok = .ok u) := by
  obtain ⟨huniq, _, hfk⟩ := hw
  constructor
  · intro e he hlt
    have hnone : db.tokens.find? (tokenRowMatches now tok) = none := by
      rw [List.find?_eq_none]
      intro x hx hpx
      have hxtok : x.token = tok := by
        have := ((Bool.and_eq_true _ _).mp hpx).1
        exact beq_iff_eq.mp this
      have hxt : x = t := huniq x hx t ht (hxtok.trans htok.symm)
      subst hxt
      rw [tokenRowMatches, he] at hpx
      have : now < e := by
        have := ((Bool.and_eq_true _ _).mp hpx).2
        exact of_decide_eq_true this
      omega
    unfold GetUserByToken
    rw [hnone]
  · intro hvalid
    have hpt : tokenRowMatches now tok t = true := by
      rw [tokenRowMatches]
      rcases hvalid with hnone | ⟨e, he, hlt⟩
      · simp [htok, hnone]
      · simp [htok, he, hlt]
    have htsome : (db.tokens.find? (tokenRowMatches now tok)).isSome :=
      List.find?_isSome.mpr ⟨t, ht, hpt⟩
    obtain ⟨t', ht'⟩ := Option.isSome_iff_exists.mp htsome
    have hp' := List.find?_some ht'
    rw [tokenRowMatches] at hp'
    have ht'tok : t'.token = tok := beq_iff_eq.mp ((Bool.and_eq_true _ _).mp hp').1
    have htt : t' = t := huniq t' (List.mem_of_find?_eq_some ht') t ht (ht'tok.trans htok.symm)
    obtain ⟨u, hu, huid⟩ := hfk t ht
    have husome : (db.users.find? (fun v => v.id == t.userId)).isSome :=
      List.find?_isSome.mpr ⟨u, hu, by simp [huid]⟩
    obtain ⟨u', hu'⟩ := Option.isSome_iff_exists.mp husome
    have hu'id : u'.id = t.userId := by simpa using List.find?_some hu'
    refine ⟨u', List.mem_of_find?_eq_some hu', hu'id, ?_⟩
    simp [GetUserByToken, ht', htt, hu']

/-- Witness for C1 on the concrete store: at time 150 the token tok1,
expired at 100, fails with no-rows, while tok2, which never expires,
resolves to its owner. -/
theorem getUserByToken_expiry_witness :
    GetUserByToken authDB0 150 ('t' :: 'o' :: 'k' :: '1' :: []) = .error .noRows
    ∧ ∃ u ∈ authDB0.users, u.id = tokEternal.userId
        ∧ GetUserByToken authDB0 150 ('t' :: 'o' :: 'k' :: '2' :: []) = .ok u :=
  ⟨(getUserByToken_expiry authDB0 150 _ (by decide) tokLive (by decide) rfl).1
      100 rfl (by decide),
   (getUserByToken_expiry authDB0 150 _ (by decide) tokEternal (by decide) rfl).2
      (Or.inl rfl)⟩

/-- Claim C2 counterexample: deleting article id 999 against a store
holding only article id 1 answers 204, not the claimed 404 — the
DELETE is a :exec statement and removing zero rows is not an error —
though indeed with no side effects (the store is unchanged). -/
theorem deleteArticle_missing_cex :
    (∀ a ∈ [art1], a.id ≠ (999 : Int))
    ∧ (DeleteArticleHandler none [art1] ('9' :: '9' :: '9' :: [])).status = 204
    ∧ (DeleteArticleHandler none [art1] ('9' :: '9' :: '9' :: [])).status ≠ 404
    ∧ (DeleteArticleHandler none [art1] ('9' :: '9' :: '9' :: [])).db = [art1] := by
  decide

/-- Claim C2 as amended: for every delete request whose id parses,
a healthy backend makes the handler answer 204 whether or not the
article exists; a missing id has no side effects (the store is
unchanged), an existing id removes exactly its row; 404 arises only
when the storage call itself fails. -/
theorem deleteArticle_amended (db : ArticleDB) (idStr : Str) (id : Int)
    (hp : goParseInt64 idStr = some id) :
    (DeleteArticleHandler none db idStr).status = 204
    ∧ (DeleteArticleHandler none db idStr).db = db.filter (fun a => !(a.id == id))
    ∧ ((∀ a ∈ db, a.id ≠ id) → (DeleteArticleHandler none db idStr).db = db)
    ∧ (∀ m, (DeleteArticleHandler (some m) db idStr).status = 404) := by
  refine ⟨?_, ?_, ?_, ?_⟩
  · simp [DeleteArticleHandler, hp, DeleteArticleQuery]
  · simp [DeleteArticleHandler, hp, DeleteArticleQuery]
  · intro habs
    have hfilter : db.filter (fun a => !(a.id == id)) = db := by
      rw [List.filter_eq_self]
      intro a ha
      simp [habs a ha]
    simp [DeleteArticleHandler, hp, DeleteArticleQuery, hfilter]
  · intro m
    simp [DeleteArticleHandler, hp, DeleteArticleQuery]

/-- Witness for the amended C2 at a concrete input: deleting id 999
from a store holding article 1 answers 204 and leaves it unchanged;
deleting with a faulted backend answers 404. -/
theorem deleteArticle_amended_witness :
    (DeleteArticleHandler none [art1] ('9' :: '9' :: '9' :: [])).status = 204
    ∧ (DeleteArticleHandler none [art1] ('9' :: '9' :: '9' :: [])).db = [art1]
    ∧ (DeleteArticleHandler (some "boom") [art1] ('9' :: '9' :: '9' :: [])).status = 404 :=
  ⟨(deleteArticle_amended [art1] _ 999 (by decide)).1,
   ((deleteArticle_amended [art1] _ 999 (by decide)).2.2.1 (by decide)),
   (deleteArticle_amended [art1] _ 999 (by decide)).2.2.2 "boom"⟩

/-- Claim C3 counterexample: a present but malformed header (scheme
Basic) together with a non-empty cookie makes extraction return the
cookie value, not the empty token the claim requires. -/
theorem extractToken_malformed_cex :
    extractToken ⟨'B' :: 'a' :: 's' :: 'i' :: 'c' :: ' ' :: 'x' :: [],
        some ('s' :: 'e' :: 'c' :: [])⟩ = 's' :: 'e' :: 'c' :: []
    ∧ ('s' :: 'e' :: 'c' :: [] : Str) ≠ [] := by
  decide

/-- Claim C3 as amended: the cookie is consulted whenever the header
fails the two-part Bearer pattern — absent, wrong scheme, or without a
space — so a malformed-but-present header with a non-empty cookie
yields the cookie value; only a header matching the Bearer form
suppresses the cookie, even when its token part trims to empty. -/
theorem extractToken_fallback_amended (hdr c : Str)
    (hmal : headerBearerTok hdr = none) (hc : c ≠ []) :
    extractToken ⟨hdr, some c⟩ = c
    ∧ (∀ rest c2, extractToken
        ⟨'B' :: 'e' :: 'a' :: 'r' :: 'e' :: 'r' :: ' ' :: rest, c2⟩ = goTrimSpace rest) := by
  constructor
  · simp [extractToken, hmal, hc]
  · intro rest c2
    have hb : headerBearerTok ('B' :: 'e' :: 'a' :: 'r' :: 'e' :: 'r' :: ' ' :: rest)
        = some (goTrimSpace rest) :=
      headerBearerTok_of_scheme ('B' :: 'e' :: 'a' :: 'r' :: 'e' :: 'r' :: []) rest
        (by decide) (by decide)
    simp [extractToken, hb]

/-- Witness for the amended C3 at a concrete input: a Basic header with
cookie sec extracts sec, and a Bearer header suppresses any cookie. -/
theorem extractToken_fallback_amended_witness :
    extractToken ⟨'B' :: 'a' :: 's' :: 'i' :: 'c' :: ' ' :: 'x' :: [],
        some ('s' :: 'e' :: 'c' :: [])⟩ = 's' :: 'e' :: 'c' :: []
    ∧ extractToken ⟨'B' :: 'e' :: 'a' :: 'r' :: 'e' :: 'r' :: ' ' :: 'z' :: [],
        some ('s' :: 'e' :: 'c' :: [])⟩ = goTrimSpace ('z' :: []) :=
  ⟨(extractToken_fallback_amended ('B' :: 'a' :: 's' :: 'i' :: 'c' :: ' ' :: 'x' :: [])
      ('s' :: 'e' :: 'c' :: []) (by decide) (by decide)).1,
   (extractToken_fallback_amended ('B' :: 'a' :: 's' :: 'i' :: 'c' :: ' ' :: 'x' :: [])
      ('s' :: 'e' :: 'c' :: []) (by decide) (by decide)).2 ('z' :: [])
      (some ('s' :: 'e' :: 'c' :: []))⟩

/-- Claim C4: a request carrying a well-formed Bearer header — any
space-free scheme lowercasing to bearer — together with any cookie
extracts the header token trimmed of surrounding whitespace; the
cookie, quantified over all values, never influences the result. -/
theorem extractToken_bearer_priority (scheme tok : Str) (cookie : Option Str)
    (hsp : ' ' ∉ scheme)
    (hlow : goToLower scheme = 'b' :: 'e' :: 'a' :: 'r' :: 'e' :: 'r' :: []) :
    extractToken ⟨scheme ++ ' ' :: tok, cookie⟩ = goTrimSpace tok := by
  simp [extractToken, headerBearerTok_of_scheme scheme tok hsp hlow]

/-- Witness for C4 at a concrete input: the header bEaRer with token
abc padded by spaces and a different non-empty cookie extracts abc. -/
theorem extractToken_bearer_priority_witness :
    extractToken ⟨('b' :: 'E' :: 'a' :: 'R' :: 'e' :: 'r' :: []) ++
        ' ' :: (' ' :: 'a' :: 'b' :: 'c' :: ' ' :: []),
        some ('o' :: 't' :: 'h' :: 'e' :: 'r' :: [])⟩ = 'a' :: 'b' :: 'c' :: [] :=
  (extractToken_bearer_priority ('b' :: 'E' :: 'a' :: 'R' :: 'e' :: 'r' :: [])
      (' ' :: 'a' :: 'b' :: 'c' :: ' ' :: [])
      (some ('o' :: 't' :: 'h' :: 'e' :: 'r' :: []))
      (by decide) (by decide)).trans (by decide)

/-- Claim C5: the authorization gate, over any resolver and request,
maps an empty extracted token to 401 with the no-token message and no
downstream call, a no-rows resolution to 401 with the
invalid-or-expired message, any other resolution error to 500, and
invokes the downstream handler at most once, only with the user the
resolver produced bound into the context and no error written.  The
code renders the two 401 messages as Unauthorized: No token provided
and Unauthorized: Invalid or expired token. -/
theorem authMiddleware_gate (resolve : Str → Except DBError User) (r : Request) :
    (extractToken r = [] →
      AuthMiddleware resolve r = ⟨some (401, "Unauthorized: No token provided"), []⟩)
    ∧ (extractToken r ≠ [] → resolve (extractToken r) = .error .noRows →
      AuthMiddleware resolve r = ⟨some (401, "Unauthorized: Invalid or expired token"), []⟩)
    ∧ (∀ m, extractToken r ≠ [] → resolve (extractToken r) = .error (.other m) →
      AuthMiddleware resolve r = ⟨some (500, "Internal server error"), []⟩)
    ∧ (AuthMiddleware resolve r).downstreamCalls.length ≤ 1
    ∧ (∀ u ∈ (AuthMiddleware resolve r).downstreamCalls,
        resolve (extractToken r) = .ok u
        ∧ (AuthMiddleware resolve r).errorResponse = none) := by
  refine ⟨?_, ?_, ?_, ?_, ?_⟩
  · intro h
    simp [AuthMiddleware, h]
  · intro h hres
    simp [AuthMiddleware, h, hres]
  · intro m h hres
    simp [AuthMiddleware, h, hres]
  · by_cases h : extractToken r = []
    · simp [AuthMiddleware, h]
    · cases hres : resolve (extractToken r) with
      | error e => cases e <;> simp [AuthMiddleware, h, hres]
      | ok u => simp [AuthMiddleware, h, hres]
  · intro u hu
    by_cases h : extractToken r = []
    · simp [AuthMiddleware, h] at hu
    · cases hres : resolve (extractToken r) with
      | error e =>
        cases e <;> simp [AuthMiddleware, h, hres] at hu
      | ok u0 =>
        simp [AuthMiddleware, h, hres] at hu
        subst hu
        simp [AuthMiddleware, h, hres]

/-- Witness for C5 at concrete inputs: with the concrete credential
store at time 150, a request with neither header nor cookie is
rejected with the no-token 401, and one bearing the expired tok1 with
the invalid-or-expired 401. -/
theorem authMiddleware_gate_witness :
    AuthMiddleware (GetUserByToken authDB0 150) ⟨[], none⟩
      = ⟨some (401, "Unauthorized: No token provided"), []⟩
    ∧ AuthMiddleware (GetUserByToken authDB0 150)
        ⟨'B' :: 'e' :: 'a' :: 'r' :: 'e' :: 'r' :: ' ' :: 't' :: 'o' :: 'k' :: '1' :: [], none⟩
      = ⟨some (401, "Unauthorized: Invalid or expired token"), []⟩ :=
  ⟨(authMiddleware_gate (GetUserByToken authDB0 150) ⟨[], none⟩).1 rfl,
   (authMiddleware_gate (GetUserByToken authDB0 150)
      ⟨'B' :: 'e' :: 'a' :: 'r' :: 'e' :: 'r' :: ' ' :: 't' :: 'o' :: 'k' :: '1' :: [], none⟩).2.1
      (by decide) (by rfl)⟩

/-- Claim C6: a create-article request whose decoded body has a zero
user id, an empty title, or empty content is answered 400 with the
store untouched and the usecase layer never invoked, over any backend
state and fault. -/
theorem createArticle_validation (fault : Fault) (db : ArticleDB) (req : ArticleReqBody)
    (nextId now : Int)
    (h : req.userId = 0 ∨ req.title = [] ∨ req.content = []) :
    CreateArticleHandler fault db (some req) nextId now
      = ⟨400, "UserID, title, and content are required", none, db, 0⟩ := by
  rcases h with h | h | h <;> simp [CreateArticleHandler, h]

/-- Witness for C6 at a concrete input: an empty title with a faulted
backend still yields the 400, an unchanged store and zero usecase
calls. -/
theorem createArticle_validation_witness :
    CreateArticleHandler (some "boom") [art1] (some ⟨7, [], 'B' :: [], none⟩) 2 50
      = ⟨400, "UserID, title, and content are required", none, [art1], 0⟩ :=
  createArticle_validation (some "boom") [art1] ⟨7, [], 'B' :: [], none⟩ 2 50
    (Or.inr (Or.inl rfl))

/-- Claim C7 counterexample: a storage failure that is not the no-rows
signal — a faulted backend — surfaces from the get-article handler as
404, not the claimed 500. -/
theorem articleStorageError_cex :
    (GetArticleHandler (some "conn reset") [art1] ('1' :: [])).status = 404
    ∧ (GetArticleHandler (some "conn reset") [art1] ('1' :: [])).status ≠ 500 := by
  decide

/-- Claim C7 as amended: on the get-article and update-article paths
every usecase failure — the no-rows signal and any other storage
error alike — is mapped to 404 (after the 400 validation gates), and
500 is never produced; only create and list translate storage errors
to 500. -/
theorem articleStorageError_amended (db : ArticleDB) (idStr : Str) (id : Int)
    (hp : goParseInt64 idStr = some id) :
    (∀ m, (GetArticleHandler (some m) db idStr).status = 404)
    ∧ ((∀ a ∈ db, a.id ≠ id) → (GetArticleHandler none db idStr).status = 404)
    ∧ (∀ m u req now, (UpdateArticleHandler (some m) db u idStr (some req) now).status = 404
        ∨ (UpdateArticleHandler (some m) db u idStr (some req) now).status = 400)
    ∧ (∀ f u body now, (UpdateArticleHandler f db u idStr body now).status ≠ 500)
    ∧ (∀ f, (GetArticleHandler f db idStr).status ≠ 500) := by
  refine ⟨?_, ?_, ?_, ?_, ?_⟩
  · intro m
    simp [GetArticleHandler, hp, GetArticleQuery]
  · intro habs
    have hfind : db.find? (fun a => a.id == id) = none := by
      rw [List.find?_eq_none]
      intro a ha
      simp [habs a ha]
    simp [GetArticleHandler, hp, GetArticleQuery, hfind]
  · intro m u req now
    by_cases hval : req.userId = 0 ∨ req.title = [] ∨ req.content = []
    · right
      rcases hval with h | h | h <;> simp [UpdateArticleHandler, hp, h]
    · left
      rw [not_or, not_or] at hval
      simp [UpdateArticleHandler, hp, hval.1, hval.2.1, hval.2.2, UpdateArticleQuery]
  · intro f u body now
    rcases body with _ | req
    · simp [UpdateArticleHandler, hp]
    · by_cases hval : req.userId = 0 ∨ req.title = [] ∨ req.content = []
      · rcases hval with h | h | h <;> simp [UpdateArticleHandler, hp, h]
      · rw [not_or, not_or] at hval
        rcases f with _ | m
        · cases hq : UpdateArticleQuery none db id req.userId req.title req.content
              req.publishedAt now with
          | mk db2 res =>
            cases res <;>
              simp [UpdateArticleHandler, hp, hval.1, hval.2.1, hval.2.2, hq]
        · simp [UpdateArticleHandler, hp, hval.1, hval.2.1, hval.2.2, UpdateArticleQuery]
  · intro f
    rcases f with _ | m
    · cases hq : GetArticleQuery none db id with
      | error e => simp [GetArticleHandler, hp, hq]
      | ok a => simp [GetArticleHandler, hp, hq]
    · simp [GetArticleHandler, hp, GetArticleQuery]

/-- Witness for the amended C7 at a concrete input: against a faulted
backend both get and update of article 1 answer 404, never 500. -/
theorem articleStorageError_amended_witness :
    (GetArticleHandler (some "conn reset") [art1] ('1' :: [])).status = 404
    ∧ ((UpdateArticleHandler (some "conn reset") [art1] userAlice ('1' :: [])
        (some ⟨8, 'T' :: [], 'B' :: [], none⟩) 50).status = 404
      ∨ (UpdateArticleHandler (some "conn reset") [art1] userAlice ('1' :: [])
        (some ⟨8, 'T' :: [], 'B' :: [], none⟩) 50).status = 400)
    ∧ (GetArticleHandler (some "conn reset") [art1] ('1' :: [])).status ≠ 500 :=
  ⟨(articleStorageError_amended [art1] ('1' :: []) 1 (by decide)).1 "conn reset",
   (articleStorageError_amended [art1] ('1' :: []) 1 (by decide)).2.2.1 "conn reset"
      userAlice ⟨8, 'T' :: [], 'B' :: [], none⟩ 50,
   (articleStorageError_amended [art1] ('1' :: []) 1 (by decide)).2.2.2.2
      (some "conn reset")⟩

/-- Claim C8: every successful UPDATE of an article sets the returned
row's update timestamp, and every stored row carrying the updated id,
to the statement time now — the SET clause writes
updated_at equals CURRENT_TIMESTAMP unconditionally, so this holds even
when the supplied user id, title, content and published_at equal the
stored values, which the witness instantiates. -/
theorem updateArticle_refreshes_timestamp (db db2 : ArticleDB) (id userId : Int)
    (title content : Str) (pub : Option Int) (now : Int) (row : Article)
    (h : UpdateArticleQuery none db id userId title content pub now = (db2, .ok row)) :
    row.updatedAt = now ∧ ∀ b ∈ db2, b.id = id → b.updatedAt = now := by
  cases hf : db.find? (fun x => x.id == id) with
  | none =>
    simp only [UpdateArticleQuery, hf] at h
    simp at h
  | some a =>
    simp only [UpdateArticleQuery, hf] at h
    rw [Prod.mk.injEq] at h
    obtain ⟨hdb, hok⟩ := h
    injection hok with hrow
    refine ⟨by rw [← hrow], ?_⟩
    intro b hb hbid
    rw [← hdb] at hb
    rw [mem_update_map_eq db id _ b hb hbid]

/-- Witness for C8 at a concrete input: updating article 1 with
exactly its stored owner, title, content and publication state at
time 42 still advances the returned and stored update timestamps
from 5 to 42. -/
theorem updateArticle_refreshes_timestamp_witness :
    (⟨1, 7, 'T' :: [], 'B' :: [], none, 5, 42⟩ : Article).updatedAt = 42
    ∧ ∀ b ∈ [(⟨1, 7, 'T' :: [], 'B' :: [], none, 5, 42⟩ : Article)],
        b.id = 1 → b.updatedAt = 42 :=
  updateArticle_refreshes_timestamp [art1] [⟨1, 7, 'T' :: [], 'B' :: [], none, 5, 42⟩]
    1 7 ('T' :: []) ('B' :: []) none 42 ⟨1, 7, 'T' :: [], 'B' :: [], none, 5, 42⟩ rfl

/-- Claim C9: logout is state-independent and idempotent — for every
prior store state it answers 200 with the fixed clearing cookie
(auth_token, empty value, path /, MaxAge -1 meaning immediate expiry,
HttpOnly, Secure, SameSite strict), changes nothing server-side, and
two calls from any two states produce identical responses. -/
theorem logout_idempotent (st st' : AuthDB) :
    Logout st = ((200, ⟨"auth_token", "", "/", -1, true, true, true⟩, "Logout successful"), st)
    ∧ (Logout st).2 = st
    ∧ (Logout st).1 = (Logout st').1 :=
  ⟨rfl, rfl, rfl⟩

/-- Claim C10: the update handler ignores the authenticated principal
bound by the middleware — its result is identical under any two
context users — and a successful update stores the caller-supplied
user id as the row's owner, with no check against the existing owner,
so supplying a different user id silently reassigns the article. -/
theorem updateArticle_reassigns_owner (db : ArticleDB) (u1 u2 : User) (idStr : Str)
    (id : Int) (req : ArticleReqBody) (now : Int) (a : Article)
    (hp : goParseInt64 idStr = some id) (ha : a ∈ db) (haid : a.id = id)
    (hu : req.userId ≠ 0) (hti : req.title ≠ []) (hco : req.content ≠ []) :
    UpdateArticleHandler none db u1 idStr (some req) now
      = UpdateArticleHandler none db u2 idStr (some req) now
    ∧ (UpdateArticleHandler none db u1 idStr (some req) now).status = 200
    ∧ (∀ b ∈ (UpdateArticleHandler none db u1 idStr (some req) now).db,
        b.id = id → b.userId = req.userId) := by
  obtain ⟨row, db2, heq, hrid, hruid, hrts, hall⟩ :=
    updateQuery_ok_of_mem db id req.userId req.title req.content req.publishedAt now a ha haid
  refine ⟨rfl, ?_, ?_⟩
  · simp [UpdateArticleHandler, hp, hu, hti, hco, heq]
  · intro b hb hbid
    have hdbeq : (UpdateArticleHandler none db u1 idStr (some req) now).db = db2 := by
      simp [UpdateArticleHandler, hp, hu, hti, hco, heq]
    rw [hdbeq] at hb
    rw [hall b hb hbid, hruid]

/-- Witness for C10 at a concrete input: article 1 is owned by user 7,
yet an update supplying user id 8 — under the authenticated principal
Alice, user 7 herself — succeeds and reassigns the row to user 8. -/
theorem updateArticle_reassigns_owner_witness :
    art1.userId = 7
    ∧ (UpdateArticleHandler none [art1] userAlice ('1' :: [])
        (some ⟨8, 'T' :: [], 'B' :: [], none⟩) 50).status = 200
    ∧ (∀ b ∈ (UpdateArticleHandler none [art1] userAlice ('1' :: [])
        (some ⟨8, 'T' :: [], 'B' :: [], none⟩) 50).db,
        b.id = 1 → b.userId = 8) :=
  ⟨by decide,
   (updateArticle_reassigns_owner [art1] userAlice userBob ('1' :: []) 1
      ⟨8, 'T' :: [], 'B' :: [], none⟩ 50 art1
      (by decide) (by decide) rfl (by decide) (by decide) (by decide)).2.1,
   (updateArticle_reassigns_owner [art1] userAlice userBob ('1' :: []) 1
      ⟨8, 'T' :: [], 'B' :: [], none⟩ 50 art1
      (by decide) (by decide) rfl (by decide) (by decide) (by decide)).2.2⟩

end NanaketCMS
